import Mathlib

/-!
Verification of the `glinf` tool (src/glinf.cpp): a shallow embedding of its
option resolution, version-negotiation loop, and report generation, together
with theorems settling the specification claims.

Modelling conventions:
* The graphics driver is an oracle `create : SurfaceFormat → Option NegCtx`
  standing for `QOpenGLContext::create()` plus the negotiated
  `context->format()`; `none` means creation failed.
* `QString::toUInt` is modelled as decimal digits only, value `< 2^32`.
* Case-insensitive comparison (`QString::compare` with `Qt::CaseInsensitive`)
  is modelled by comparing lower-cased strings.
* `printf` lines are modelled as the list of printed lines; the `%5d` column
  padding of the limits table is elided (labels, values and query names kept).
* Heap events for `new`/`delete` of the offscreen surface and the context are
  recorded explicitly, numbering each loop iteration's pair.
-/

/- ### Data model -/

inductive RType where
  | DefaultRenderableType
  | OpenGL
  | OpenGLES
deriving DecidableEq, Repr

inductive GLProfile where
  | NoProfile
  | CoreProfile
  | CompatibilityProfile
deriving DecidableEq, Repr

/-- `QSurfaceFormat`, restricted to the fields glinf touches. -/
structure SurfaceFormat where
  renderableType : RType
  profile : GLProfile
  major : Nat
  minor : Nat
deriving DecidableEq, Repr

/-- The `QSurfaceFormat` default-constructed state (default renderable type,
no profile, version 2.0). -/
def initialFormat : SurfaceFormat :=
  { renderableType := RType.DefaultRenderableType, profile := GLProfile.NoProfile,
    major := 2, minor := 0 }

/-- The negotiated context as observed through `QOpenGLContext`:
`isOpenGLES()`, `format().majorVersion()`, `format().minorVersion()`,
`format().profile()`. -/
structure NegCtx where
  isES : Bool
  major : Nat
  minor : Nat
  profile : GLProfile
deriving DecidableEq, Repr

/-- GL query identifiers used by glinf. -/
inductive GLEnum where
  | GL_VERSION
  | GL_SHADING_LANGUAGE_VERSION
  | GL_VENDOR
  | GL_RENDERER
  | GL_MAX_TEXTURE_SIZE
  | GL_MAX_3D_TEXTURE_SIZE
  | GL_MAX_CUBE_MAP_TEXTURE_SIZE
  | GL_MAX_ARRAY_TEXTURE_LAYERS
  | GL_MAX_FRAMEBUFFER_WIDTH
  | GL_MAX_FRAMEBUFFER_HEIGHT
  | GL_MAX_COLOR_ATTACHMENTS
  | GL_MAX_DRAW_BUFFERS
  | GL_MAX_VERTEX_UNIFORM_COMPONENTS
  | GL_MAX_TESS_CONTROL_UNIFORM_COMPONENTS
  | GL_MAX_TESS_EVALUATION_UNIFORM_COMPONENTS
  | GL_MAX_GEOMETRY_UNIFORM_COMPONENTS
  | GL_MAX_FRAGMENT_UNIFORM_COMPONENTS
  | GL_MAX_COMPUTE_UNIFORM_COMPONENTS
  | GL_MAX_VERTEX_ATTRIBS
  | GL_MAX_TESS_CONTROL_INPUT_COMPONENTS
  | GL_MAX_TESS_EVALUATION_INPUT_COMPONENTS
  | GL_MAX_GEOMETRY_INPUT_COMPONENTS
  | GL_MAX_FRAGMENT_INPUT_COMPONENTS
  | GL_MAX_VERTEX_OUTPUT_COMPONENTS
  | GL_MAX_TESS_CONTROL_OUTPUT_COMPONENTS
  | GL_MAX_TESS_EVALUATION_OUTPUT_COMPONENTS
  | GL_MAX_GEOMETRY_OUTPUT_COMPONENTS
  | GL_MAX_VERTEX_TEXTURE_IMAGE_UNITS
  | GL_MAX_TESS_CONTROL_TEXTURE_IMAGE_UNITS
  | GL_MAX_TESS_EVALUATION_TEXTURE_IMAGE_UNITS
  | GL_MAX_GEOMETRY_TEXTURE_IMAGE_UNITS
  | GL_MAX_TEXTURE_IMAGE_UNITS
  | GL_MAX_COMPUTE_TEXTURE_IMAGE_UNITS
  | GL_MAX_COMBINED_TEXTURE_IMAGE_UNITS
deriving DecidableEq, Repr

/-- The environment the program runs against: the driver, `makeCurrent`,
the GL query functions (`glGetString` / `glGetIntegerv`) and the extension
set reported by `context->extensions()`. -/
structure Env where
  create : SurfaceFormat → Option NegCtx
  makeCurrentOk : NegCtx → Bool
  glS : GLEnum → String
  glI : GLEnum → Int
  extensions : List String

/-- The four parsed command-line option values (Qt's flag parsing itself is
out of scope; `none` means the flag was not given). -/
structure Options where
  typeVal : Option String
  profileVal : Option String
  versionVal : Option String
  extensionsFlag : Bool

/- ### Option resolution (src/glinf.cpp lines 61-101) -/

/-- `QString::compare(a, b, Qt::CaseInsensitive) == 0`, modelled by
lower-casing character by character. -/
def ciEq (a b : String) : Bool :=
  a.data.map Char.toLower == b.data.map Char.toLower

/-- `QString::split('.')` (keeping empty parts, as Qt does by default),
at the character level. -/
def splitDot : List Char → List (List Char)
  | [] => [[]]
  | c :: rest =>
    if c = '.' then [] :: splitDot rest
    else
      match splitDot rest with
      | [] => [[c]]
      | g :: gs => (c :: g) :: gs

/-- Decimal value of a digit string. -/
def charsToNat (l : List Char) : Nat :=
  l.foldl (fun a c => a * 10 + (c.toNat - 48)) 0

/-- `QString::toUInt`: non-empty, decimal digits only, result fits an
unsigned 32-bit int. -/
def qToUIntChars (l : List Char) : Option Nat :=
  if l ≠ [] ∧ l.all Char.isDigit then
    if charsToNat l < 2 ^ 32 then some (charsToNat l) else none
  else none

/-- `value("version").split('.')` followed by the two `toUInt` calls and the
length/ok checks (lines 88-98). -/
def qParseVersion (s : String) : Option (Nat × Nat) :=
  match splitDot s.data with
  | [a, b] =>
    match qToUIntChars a, qToUIntChars b with
    | some major, some minor => some (major, minor)
    | _, _ => none
  | _ => none

/-- The `--type` branch: sets the renderable type or fails with
`invalid type`. -/
def typeResolve (v : Option String) (fmt : SurfaceFormat) :
    Except String SurfaceFormat :=
  match v with
  | none => Except.ok fmt
  | some s =>
    if ciEq s "opengl" then
      Except.ok { fmt with renderableType := RType.OpenGL }
    else if ciEq s "opengles" then
      Except.ok { fmt with renderableType := RType.OpenGLES }
    else
      Except.error "invalid type"

/-- The `--profile` branch (entered after the unconditional
`format.setProfile(CoreProfile)`): sets the profile or fails with
`invalid profile`. -/
def profileResolve (v : Option String) (fmt : SurfaceFormat) :
    Except String SurfaceFormat :=
  match v with
  | none => Except.ok fmt
  | some s =>
    if ciEq s "core" then
      Except.ok { fmt with profile := GLProfile.CoreProfile }
    else if ciEq s "compat" || ciEq s "compatibility" then
      Except.ok { fmt with profile := GLProfile.CompatibilityProfile }
    else
      Except.error "invalid profile"

/-- The `--version` branch: default range 4.9 down to 3.2, or the pinned
point `(major, minor, major, minor)`; malformed input fails with
`invalid version`.  Result is `(tryMajorMax, tryMinorMax, tryMajorMin,
tryMinorMin)`. -/
def versionResolve (v : Option String) :
    Except String (Nat × Nat × Nat × Nat) :=
  match v with
  | none => Except.ok (4, 9, 3, 2)
  | some s =>
    match qParseVersion s with
    | some (major, minor) => Except.ok (major, minor, major, minor)
    | none => Except.error "invalid version"

/-- All of option resolution: format (type, then forced CoreProfile, then
profile) and the negotiation bounds. -/
def resolveOptions (opts : Options) :
    Except String (SurfaceFormat × Nat × Nat × Nat × Nat) :=
  match typeResolve opts.typeVal initialFormat with
  | Except.error msg => Except.error msg
  | Except.ok fmt1 =>
    match profileResolve opts.profileVal
        { fmt1 with profile := GLProfile.CoreProfile } with
    | Except.error msg => Except.error msg
    | Except.ok fmt2 =>
      match versionResolve opts.versionVal with
      | Except.error msg => Except.error msg
      | Except.ok (maMax, miMax, maMin, miMin) =>
        Except.ok (fmt2, maMax, miMax, maMin, miMin)

/- ### Version negotiation (src/glinf.cpp lines 104-146) -/

/-- Heap events for the surface/context pairs: iteration `i`'s
`new QOffscreenSurface`, `new QOpenGLContext`, `delete context`,
`delete surface`. -/
inductive MemEvent where
  | allocSurface (i : Nat)
  | allocContext (i : Nat)
  | freeContext (i : Nat)
  | freeSurface (i : Nat)
deriving DecidableEq, Repr

/-- The two allocations made at the start of a loop iteration. -/
def pairAllocEvents (i : Nat) : List MemEvent :=
  [MemEvent.allocSurface i, MemEvent.allocContext i]

/-- A full failed-and-retried iteration: allocate both, then
`delete context; delete surface`. -/
def quadEvents (i : Nat) : List MemEvent :=
  [MemEvent.allocSurface i, MemEvent.allocContext i,
   MemEvent.freeContext i, MemEvent.freeSurface i]

/-- `format().majorVersion() < tryMajor || (majorVersion() == tryMajor &&
minorVersion() < tryMinor)`: strict lexicographic version comparison. -/
def versionLtLex (aMajor aMinor bMajor bMinor : Nat) : Bool :=
  decide (aMajor < bMajor) || (aMajor == bMajor && decide (aMinor < bMinor))

/-- `format.setVersion(tryMajor, tryMinor)` for a trial `t`. -/
def fmtAt (fmt : SurfaceFormat) (t : Nat × Nat) : SurfaceFormat :=
  { fmt with major := t.1, minor := t.2 }

/-- `ok` after one attempt: `context->create()` succeeded and the negotiated
version is not below the trial version (lines 114-121). -/
def attemptOk (create : SurfaceFormat → Option NegCtx) (fmt : SurfaceFormat)
    (t : Nat × Nat) : Bool :=
  match create (fmtAt fmt t) with
  | none => false
  | some ctx => !(versionLtLex ctx.major ctx.minor t.1 t.2)

/-- The step-down rule of lines 124-133: roll over from minor 0 of a major
above the floor major, else decrement the minor while above the floor,
else stop (`tryAgain` stays false). -/
def stepTrial? (maMin miMin major minor : Nat) : Option (Nat × Nat) :=
  if major > maMin ∧ minor = 0 then some (major - 1, 9)
  else if major > maMin ∨ minor > miMin then some (major, minor - 1)
  else none

theorem stepTrial?_measure (maMin miMin major minor major' minor' : Nat)
    (h : stepTrial? maMin miMin major minor = some (major', minor')) :
    major' * 10 + minor' < major * 10 + minor := by
  unfold stepTrial? at h
  split at h
  · rename_i h1
    simp only [Option.some.injEq, Prod.mk.injEq] at h
    omega
  · split at h
    · rename_i h1 h2
      simp only [Option.some.injEq, Prod.mk.injEq] at h
      omega
    · exact absurd h (by simp)

/-- The `for (;;)` negotiation loop (lines 110-142), fully instrumented:
returns the list of attempted trial versions, the heap events, and the
negotiated context on success (`none` when the loop exits with `ok` false).
`i` numbers the surface/context pair allocated by the current iteration. -/
def negotiateAux (create : SurfaceFormat → Option NegCtx) (fmt : SurfaceFormat)
    (maMin miMin i major minor : Nat) :
    List (Nat × Nat) × List MemEvent × Option NegCtx :=
  if attemptOk create fmt (major, minor) then
    ([(major, minor)], pairAllocEvents i, create (fmtAt fmt (major, minor)))
  else
    match h : stepTrial? maMin miMin major minor with
    | some (major', minor') =>
      let rest := negotiateAux create fmt maMin miMin (i + 1) major' minor'
      ((major, minor) :: rest.1, quadEvents i ++ rest.2.1, rest.2.2)
    | none => ([(major, minor)], pairAllocEvents i, none)
termination_by major * 10 + minor
decreasing_by
  exact stepTrial?_measure _ _ _ _ _ _ h

/-- The full trial sequence the loop would walk if every attempt failed,
computed with fuel (`fuel > major * 10 + minor` suffices). -/
def trialSeqF : Nat → Nat → Nat → Nat → Nat → List (Nat × Nat)
  | 0, _, _, _, _ => []
  | fuel + 1, maMin, miMin, major, minor =>
    (major, minor) ::
      (match stepTrial? maMin miMin major minor with
       | some (major', minor') => trialSeqF fuel maMin miMin major' minor'
       | none => [])

/-- The unconstrained run's trial sequence, 4.9 down to 3.2. -/
def unconstrainedTrials : List (Nat × Nat) :=
  trialSeqF 50 3 2 4 9

/- ### Report phase (src/glinf.cpp lines 152-224) -/

/-- The context summary line before any profile suffix:
`"OpenGL[ES] version MAJOR.MINOR"`. -/
def contextBase (ctx : NegCtx) : String :=
  (if ctx.isES then "OpenGLES" else "OpenGL") ++ " version "
    ++ Nat.repr ctx.major ++ "." ++ Nat.repr ctx.minor

/-- The full context summary line (lines 154-164): the profile suffix is
appended only for desktop contexts at version 3.2 or above, and says
`compatibility` exactly when the negotiated profile is
`CompatibilityProfile`. -/
def contextString (ctx : NegCtx) : String :=
  if ctx.isES = false ∧ (3 < ctx.major ∨ (ctx.major = 3 ∧ 2 ≤ ctx.minor)) then
    contextBase ctx ++ " "
      ++ (if ctx.profile = GLProfile.CompatibilityProfile then "compatibility"
          else "core")
      ++ " profile"
  else
    contextBase ctx

/-- Lines 172-177: keep the non-empty extension names and sort them
(`std::sort`, modelled by insertion sort). -/
def sortedExtensions (exts : List String) : List String :=
  List.insertionSort (· ≤ ·) (exts.filter (fun e => decide (0 < e.length)))

/-- The query-identifier string printed at the end of a limits line. -/
def glEnumName : GLEnum → String
  | GLEnum.GL_VERSION => "GL_VERSION"
  | GLEnum.GL_SHADING_LANGUAGE_VERSION => "GL_SHADING_LANGUAGE_VERSION"
  | GLEnum.GL_VENDOR => "GL_VENDOR"
  | GLEnum.GL_RENDERER => "GL_RENDERER"
  | GLEnum.GL_MAX_TEXTURE_SIZE => "GL_MAX_TEXTURE_SIZE"
  | GLEnum.GL_MAX_3D_TEXTURE_SIZE => "GL_MAX_3D_TEXTURE_SIZE"
  | GLEnum.GL_MAX_CUBE_MAP_TEXTURE_SIZE => "GL_MAX_CUBE_MAP_TEXTURE_SIZE"
  | GLEnum.GL_MAX_ARRAY_TEXTURE_LAYERS => "GL_MAX_ARRAY_TEXTURE_LAYERS"
  | GLEnum.GL_MAX_FRAMEBUFFER_WIDTH => "GL_MAX_FRAMEBUFFER_WIDTH"
  | GLEnum.GL_MAX_FRAMEBUFFER_HEIGHT => "GL_MAX_FRAMEBUFFER_HEIGHT"
  | GLEnum.GL_MAX_COLOR_ATTACHMENTS => "GL_MAX_COLOR_ATTACHMENTS"
  | GLEnum.GL_MAX_DRAW_BUFFERS => "GL_MAX_DRAW_BUFFERS"
  | GLEnum.GL_MAX_VERTEX_UNIFORM_COMPONENTS => "GL_MAX_VERTEX_UNIFORM_COMPONENTS"
  | GLEnum.GL_MAX_TESS_CONTROL_UNIFORM_COMPONENTS => "GL_MAX_TESS_CONTROL_UNIFORM_COMPONENTS"
  | GLEnum.GL_MAX_TESS_EVALUATION_UNIFORM_COMPONENTS => "GL_MAX_TESS_EVALUATION_UNIFORM_COMPONENTS"
  | GLEnum.GL_MAX_GEOMETRY_UNIFORM_COMPONENTS => "GL_MAX_GEOMETRY_UNIFORM_COMPONENTS"
  | GLEnum.GL_MAX_FRAGMENT_UNIFORM_COMPONENTS => "GL_MAX_FRAGMENT_UNIFORM_COMPONENTS"
  | GLEnum.GL_MAX_COMPUTE_UNIFORM_COMPONENTS => "GL_MAX_COMPUTE_UNIFORM_COMPONENTS"
  | GLEnum.GL_MAX_VERTEX_ATTRIBS => "GL_MAX_VERTEX_ATTRIBS"
  | GLEnum.GL_MAX_TESS_CONTROL_INPUT_COMPONENTS => "GL_MAX_TESS_CONTROL_INPUT_COMPONENTS"
  | GLEnum.GL_MAX_TESS_EVALUATION_INPUT_COMPONENTS => "GL_MAX_TESS_EVALUATION_INPUT_COMPONENTS"
  | GLEnum.GL_MAX_GEOMETRY_INPUT_COMPONENTS => "GL_MAX_GEOMETRY_INPUT_COMPONENTS"
  | GLEnum.GL_MAX_FRAGMENT_INPUT_COMPONENTS => "GL_MAX_FRAGMENT_INPUT_COMPONENTS"
  | GLEnum.GL_MAX_VERTEX_OUTPUT_COMPONENTS => "GL_MAX_VERTEX_OUTPUT_COMPONENTS"
  | GLEnum.GL_MAX_TESS_CONTROL_OUTPUT_COMPONENTS => "GL_MAX_TESS_CONTROL_OUTPUT_COMPONENTS"
  | GLEnum.GL_MAX_TESS_EVALUATION_OUTPUT_COMPONENTS => "GL_MAX_TESS_EVALUATION_OUTPUT_COMPONENTS"
  | GLEnum.GL_MAX_GEOMETRY_OUTPUT_COMPONENTS => "GL_MAX_GEOMETRY_OUTPUT_COMPONENTS"
  | GLEnum.GL_MAX_VERTEX_TEXTURE_IMAGE_UNITS => "GL_MAX_VERTEX_TEXTURE_IMAGE_UNITS"
  | GLEnum.GL_MAX_TESS_CONTROL_TEXTURE_IMAGE_UNITS => "GL_MAX_TESS_CONTROL_TEXTURE_IMAGE_UNITS"
  | GLEnum.GL_MAX_TESS_EVALUATION_TEXTURE_IMAGE_UNITS => "GL_MAX_TESS_EVALUATION_TEXTURE_IMAGE_UNITS"
  | GLEnum.GL_MAX_GEOMETRY_TEXTURE_IMAGE_UNITS => "GL_MAX_GEOMETRY_TEXTURE_IMAGE_UNITS"
  | GLEnum.GL_MAX_TEXTURE_IMAGE_UNITS => "GL_MAX_TEXTURE_IMAGE_UNITS"
  | GLEnum.GL_MAX_COMPUTE_TEXTURE_IMAGE_UNITS => "GL_MAX_COMPUTE_TEXTURE_IMAGE_UNITS"
  | GLEnum.GL_MAX_COMBINED_TEXTURE_IMAGE_UNITS => "GL_MAX_COMBINED_TEXTURE_IMAGE_UNITS"

/-- The resource-limitations table of lines 184-224, grouped by its section
headings: each entry is (human label, printed value, printed query
identifier).  The two derived lines multiply a query result by 4; every
other line prints the raw `getI` result. -/
def resourceLimitSections (glI : GLEnum → Int) :
    List (String × List (String × Int × String)) :=
  [ ("Texture limits",
     [ ("1D / 2D size", glI GLEnum.GL_MAX_TEXTURE_SIZE, "GL_MAX_TEXTURE_SIZE"),
       ("3D size", glI GLEnum.GL_MAX_3D_TEXTURE_SIZE, "GL_MAX_3D_TEXTURE_SIZE"),
       ("Cubemap size", glI GLEnum.GL_MAX_CUBE_MAP_TEXTURE_SIZE, "GL_MAX_CUBE_MAP_TEXTURE_SIZE"),
       ("Arr. layers", glI GLEnum.GL_MAX_ARRAY_TEXTURE_LAYERS, "GL_MAX_ARRAY_TEXTURE_LAYERS") ]),
    ("Framebuffer object limits",
     [ ("Width", glI GLEnum.GL_MAX_FRAMEBUFFER_WIDTH, "GL_MAX_FRAMEBUFFER_WIDTH"),
       ("Height", glI GLEnum.GL_MAX_FRAMEBUFFER_HEIGHT, "GL_MAX_FRAMEBUFFER_HEIGHT"),
       ("Color Attach.", glI GLEnum.GL_MAX_COLOR_ATTACHMENTS, "GL_MAX_COLOR_ATTACHMENTS"),
       ("Draw buffers", glI GLEnum.GL_MAX_DRAW_BUFFERS, "GL_MAX_DRAW_BUFFERS") ]),
    ("Maximum number of uniform components in shader stage",
     [ ("Vertex", glI GLEnum.GL_MAX_VERTEX_UNIFORM_COMPONENTS, "GL_MAX_VERTEX_UNIFORM_COMPONENTS"),
       ("Tess. Ctrl.", glI GLEnum.GL_MAX_TESS_CONTROL_UNIFORM_COMPONENTS, "GL_MAX_TESS_CONTROL_UNIFORM_COMPONENTS"),
       ("Tess. Eval.", glI GLEnum.GL_MAX_TESS_EVALUATION_UNIFORM_COMPONENTS, "GL_MAX_TESS_EVALUATION_UNIFORM_COMPONENTS"),
       ("Geometry", glI GLEnum.GL_MAX_GEOMETRY_UNIFORM_COMPONENTS, "GL_MAX_GEOMETRY_UNIFORM_COMPONENTS"),
       ("Fragment", glI GLEnum.GL_MAX_FRAGMENT_UNIFORM_COMPONENTS, "GL_MAX_FRAGMENT_UNIFORM_COMPONENTS"),
       ("Compute", glI GLEnum.GL_MAX_COMPUTE_UNIFORM_COMPONENTS, "GL_MAX_COMPUTE_UNIFORM_COMPONENTS") ]),
    ("Maximum number of input components in shader stage",
     [ ("Vertex", 4 * glI GLEnum.GL_MAX_VERTEX_ATTRIBS, "4*GL_MAX_VERTEX_ATTRIBS"),
       ("Tess. Ctrl.", glI GLEnum.GL_MAX_TESS_CONTROL_INPUT_COMPONENTS, "GL_MAX_TESS_CONTROL_INPUT_COMPONENTS"),
       ("Tess. Eval.", glI GLEnum.GL_MAX_TESS_EVALUATION_INPUT_COMPONENTS, "GL_MAX_TESS_EVALUATION_INPUT_COMPONENTS"),
       ("Geometry", glI GLEnum.GL_MAX_GEOMETRY_INPUT_COMPONENTS, "GL_MAX_GEOMETRY_INPUT_COMPONENTS"),
       ("Fragment", glI GLEnum.GL_MAX_FRAGMENT_INPUT_COMPONENTS, "GL_MAX_FRAGMENT_INPUT_COMPONENTS") ]),
    ("Maximum number of output components in shader stage",
     [ ("Vertex", glI GLEnum.GL_MAX_VERTEX_OUTPUT_COMPONENTS, "GL_MAX_VERTEX_OUTPUT_COMPONENTS"),
       ("Tess. Ctrl.", glI GLEnum.GL_MAX_TESS_CONTROL_OUTPUT_COMPONENTS, "GL_MAX_TESS_CONTROL_OUTPUT_COMPONENTS"),
       ("Tess. Eval.", glI GLEnum.GL_MAX_TESS_EVALUATION_OUTPUT_COMPONENTS, "GL_MAX_TESS_EVALUATION_OUTPUT_COMPONENTS"),
       ("Geometry", glI GLEnum.GL_MAX_GEOMETRY_OUTPUT_COMPONENTS, "GL_MAX_GEOMETRY_OUTPUT_COMPONENTS"),
       ("Fragment", 4 * glI GLEnum.GL_MAX_DRAW_BUFFERS, "4*GL_MAX_DRAW_BUFFERS") ]),
    ("Maximum number of samplers in shader stage",
     [ ("Vertex", glI GLEnum.GL_MAX_VERTEX_TEXTURE_IMAGE_UNITS, "GL_MAX_VERTEX_TEXTURE_IMAGE_UNITS"),
       ("Tess. Ctrl.", glI GLEnum.GL_MAX_TESS_CONTROL_TEXTURE_IMAGE_UNITS, "GL_MAX_TESS_CONTROL_TEXTURE_IMAGE_UNITS"),
       ("Tess. Eval.", glI GLEnum.GL_MAX_TESS_EVALUATION_TEXTURE_IMAGE_UNITS, "GL_MAX_TESS_EVALUATION_TEXTURE_IMAGE_UNITS"),
       ("Geometry", glI GLEnum.GL_MAX_GEOMETRY_TEXTURE_IMAGE_UNITS, "GL_MAX_GEOMETRY_TEXTURE_IMAGE_UNITS"),
       ("Fragment", glI GLEnum.GL_MAX_TEXTURE_IMAGE_UNITS, "GL_MAX_TEXTURE_IMAGE_UNITS"),
       ("Compute", glI GLEnum.GL_MAX_COMPUTE_TEXTURE_IMAGE_UNITS, "GL_MAX_COMPUTE_TEXTURE_IMAGE_UNITS"),
       ("Combined", glI GLEnum.GL_MAX_COMBINED_TEXTURE_IMAGE_UNITS, "GL_MAX_COMBINED_TEXTURE_IMAGE_UNITS") ]) ]

/-- One rendered limits line (column padding elided). -/
def limitLine (label : String) (v : Int) (q : String) : String :=
  "    " ++ label ++ ": " ++ toString v ++ "  " ++ q

/-- All stdout lines of a successful run, in order. -/
def reportLines (opts : Options) (env : Env) (ctx : NegCtx) : List String :=
  ["Context:    " ++ contextString ctx,
   "Version:    " ++ env.glS GLEnum.GL_VERSION,
   "SL Version: " ++ env.glS GLEnum.GL_SHADING_LANGUAGE_VERSION,
   "Vendor:     " ++ env.glS GLEnum.GL_VENDOR,
   "Renderer:   " ++ env.glS GLEnum.GL_RENDERER]
  ++ (if opts.extensionsFlag then
        "Extensions:" :: (sortedExtensions env.extensions).map
          (fun e => "    " ++ e)
      else [])
  ++ "Resource limitations:" ::
      (List.map (fun sec => ("  " ++ sec.1 ++ ":") ::
          sec.2.map (fun e => limitLine e.1 e.2.1 e.2.2))
        (resourceLimitSections env.glI)).flatten

/- ### The whole program -/

/-- The observable outcome of one process run: exit code, the two output
streams as lists of lines, plus instrumentation (attempted trial versions,
heap events, and the context handed to the report phase, if any). -/
structure RunResult where
  exitCode : Nat
  stdout : List String
  stderr : List String
  trials : List (Nat × Nat)
  events : List MemEvent
  usedCtx : Option NegCtx
deriving DecidableEq, Repr

/-- An exit-1 outcome before the negotiation loop ran: one stderr line,
no stdout, no graphics resources touched. -/
def earlyExit (msg : String) : RunResult :=
  { exitCode := 1, stdout := [], stderr := [msg], trials := [], events := [],
    usedCtx := none }

/-- `main` (minus Qt flag tokenisation): option resolution, the negotiation
loop, `makeCurrent`, then the report. -/
def finishRun (opts : Options) (env : Env)
    (r : List (Nat × Nat) × List MemEvent × Option NegCtx) : RunResult :=
  match r.2.2 with
  | none =>
    { exitCode := 1, stdout := [], stderr := ["cannot create context"],
      trials := r.1, events := r.2.1, usedCtx := none }
  | some ctx =>
    if env.makeCurrentOk ctx then
      { exitCode := 0, stdout := reportLines opts env ctx, stderr := [],
        trials := r.1, events := r.2.1, usedCtx := some ctx }
    else
      { exitCode := 1, stdout := [],
        stderr := ["cannot make context current"],
        trials := r.1, events := r.2.1, usedCtx := none }

def mainRun (opts : Options) (env : Env) : RunResult :=
  match resolveOptions opts with
  | Except.error msg => earlyExit msg
  | Except.ok (fmt, maMax, miMax, maMin, miMin) =>
    finishRun opts env (negotiateAux env.create fmt maMin miMin 0 maMax miMax)

/- Conditional evaluation lemmas for `mainRun` and `finishRun`. -/

theorem mainRun_error (opts : Options) (env : Env) (msg : String)
    (hr : resolveOptions opts = Except.error msg) :
    mainRun opts env = earlyExit msg := by
  unfold mainRun
  rw [hr]

theorem mainRun_resolved (opts : Options) (env : Env) (fmt : SurfaceFormat)
    (maMax miMax maMin miMin : Nat)
    (hr : resolveOptions opts = Except.ok (fmt, maMax, miMax, maMin, miMin)) :
    mainRun opts env =
      finishRun opts env (negotiateAux env.create fmt maMin miMin 0 maMax miMax) := by
  unfold mainRun
  rw [hr]

theorem finishRun_none (opts : Options) (env : Env)
    (r : List (Nat × Nat) × List MemEvent × Option NegCtx)
    (h : r.2.2 = none) :
    finishRun opts env r =
      { exitCode := 1, stdout := [], stderr := ["cannot create context"],
        trials := r.1, events := r.2.1, usedCtx := none } := by
  unfold finishRun
  rw [h]

theorem finishRun_some_current (opts : Options) (env : Env)
    (r : List (Nat × Nat) × List MemEvent × Option NegCtx) (ctx : NegCtx)
    (h : r.2.2 = some ctx) (hm : env.makeCurrentOk ctx = true) :
    finishRun opts env r =
      { exitCode := 0, stdout := reportLines opts env ctx, stderr := [],
        trials := r.1, events := r.2.1, usedCtx := some ctx } := by
  unfold finishRun
  rw [h]
  simp [hm]

theorem finishRun_some_notcurrent (opts : Options) (env : Env)
    (r : List (Nat × Nat) × List MemEvent × Option NegCtx) (ctx : NegCtx)
    (h : r.2.2 = some ctx) (hm : env.makeCurrentOk ctx = false) :
    finishRun opts env r =
      { exitCode := 1, stdout := [], stderr := ["cannot make context current"],
        trials := r.1, events := r.2.1, usedCtx := none } := by
  unfold finishRun
  rw [h]
  simp [hm]

/- ### General lemmas about the negotiation loop -/

theorem versionLtLex_eq_false_iff (a b c d : Nat) :
    versionLtLex a b c d = false ↔ ¬(a < c ∨ (a = c ∧ b < d)) := by
  simp only [versionLtLex, Bool.or_eq_false_iff, Bool.and_eq_false_iff,
    decide_eq_false_iff_not, beq_eq_false_iff_ne, ne_eq]
  constructor
  · rintro ⟨h1, h2⟩
    rcases h2 with h2 | h2 <;> omega
  · intro h
    constructor <;> [omega; (by_cases hac : a = c <;> [right; left] <;> first | omega | exact hac)]

/-- A successful attempt is exactly: the driver created a context and its
version is not below the trial version. -/
theorem attemptOk_iff (create : SurfaceFormat → Option NegCtx)
    (fmt : SurfaceFormat) (t : Nat × Nat) :
    attemptOk create fmt t = true ↔
      ∃ ctx, create (fmtAt fmt t) = some ctx ∧
        versionLtLex ctx.major ctx.minor t.1 t.2 = false := by
  unfold attemptOk
  cases hc : create (fmtAt fmt t) with
  | none => simp [hc]
  | some ctx => simp [hc]

/-- The trial list of the loop is never empty: at least one attempt is made. -/
theorem negotiateAux_trials_ne_nil (create : SurfaceFormat → Option NegCtx)
    (fmt : SurfaceFormat) (maMin miMin i major minor : Nat) :
    (negotiateAux create fmt maMin miMin i major minor).1 ≠ [] := by
  rw [negotiateAux]
  by_cases hok : attemptOk create fmt (major, minor)
  · simp [hok]
  · cases hstep : stepTrial? maMin miMin major minor with
    | none => simp [hok, hstep]
    | some t =>
      obtain ⟨major', minor'⟩ := t
      simp [hok, hstep]

/-- The trial list of the loop is the longest all-failing prefix of the full
step-down sequence, followed by the first succeeding trial if one exists. -/
theorem negotiateAux_trials_eq (create : SurfaceFormat → Option NegCtx)
    (fmt : SurfaceFormat) (maMin miMin : Nat) :
    ∀ fuel major minor i, major * 10 + minor < fuel →
      (negotiateAux create fmt maMin miMin i major minor).1 =
        (trialSeqF fuel maMin miMin major minor).takeWhile
            (fun t => !attemptOk create fmt t)
          ++ ((trialSeqF fuel maMin miMin major minor).dropWhile
            (fun t => !attemptOk create fmt t)).take 1 := by
  intro fuel
  induction fuel with
  | zero => intro major minor i h; omega
  | succ f ih =>
    intro major minor i h
    rw [negotiateAux, trialSeqF]
    by_cases hok : attemptOk create fmt (major, minor)
    · simp [hok]
    · cases hstep : stepTrial? maMin miMin major minor with
      | none => simp [hok, hstep]
      | some t =>
        obtain ⟨major', minor'⟩ := t
        have hlt := stepTrial?_measure _ _ _ _ _ _ hstep
        simp only [hok, if_false, hstep, Bool.false_eq_true]
        rw [ih major' minor' (i + 1) (by omega)]
        simp [hok]

/-- The loop's result is the driver's answer at the first succeeding trial of
the full step-down sequence, or `none` when every trial fails. -/
theorem negotiateAux_res_eq (create : SurfaceFormat → Option NegCtx)
    (fmt : SurfaceFormat) (maMin miMin : Nat) :
    ∀ fuel major minor i, major * 10 + minor < fuel →
      (negotiateAux create fmt maMin miMin i major minor).2.2 =
        (match (trialSeqF fuel maMin miMin major minor).dropWhile
            (fun t => !attemptOk create fmt t) with
         | [] => none
         | t :: _ => create (fmtAt fmt t)) := by
  intro fuel
  induction fuel with
  | zero => intro major minor i h; omega
  | succ f ih =>
    intro major minor i h
    rw [negotiateAux, trialSeqF]
    by_cases hok : attemptOk create fmt (major, minor)
    · simp [hok]
    · cases hstep : stepTrial? maMin miMin major minor with
      | none => simp [hok, hstep]
      | some t =>
        obtain ⟨major', minor'⟩ := t
        have hlt := stepTrial?_measure _ _ _ _ _ _ hstep
        simp only [hok, if_false, hstep, Bool.false_eq_true]
        rw [ih major' minor' (i + 1) (by omega)]
        simp [hok]

/-- Heap-event shape of the loop: every iteration except the last allocates
its surface/context pair and frees it again (context first) before the next
iteration allocates; the final iteration's pair is allocated and never freed
inside the loop. -/
theorem negotiateAux_events_eq (create : SurfaceFormat → Option NegCtx)
    (fmt : SurfaceFormat) (maMin miMin : Nat) :
    ∀ fuel major minor i, major * 10 + minor < fuel →
      (negotiateAux create fmt maMin miMin i major minor).2.1 =
        ((List.range' i
            ((negotiateAux create fmt maMin miMin i major minor).1.length - 1)).map
          quadEvents).flatten
        ++ pairAllocEvents
            (i + ((negotiateAux create fmt maMin miMin i major minor).1.length - 1)) := by
  intro fuel
  induction fuel with
  | zero => intro major minor i h; omega
  | succ f ih =>
    intro major minor i h
    rw [negotiateAux]
    by_cases hok : attemptOk create fmt (major, minor)
    · simp [hok]
    · cases hstep : stepTrial? maMin miMin major minor with
      | none => simp [hok, hstep]
      | some t =>
        obtain ⟨major', minor'⟩ := t
        have hlt := stepTrial?_measure _ _ _ _ _ _ hstep
        have hne := negotiateAux_trials_ne_nil create fmt maMin miMin (i + 1) major' minor'
        have hlen : 1 ≤ (negotiateAux create fmt maMin miMin (i + 1) major' minor').1.length := by
          cases hl : (negotiateAux create fmt maMin miMin (i + 1) major' minor').1 with
          | nil => exact absurd hl hne
          | cons a l => simp
        simp only [hok, if_false, hstep, Bool.false_eq_true, List.length_cons]
        rw [ih major' minor' (i + 1) (by omega)]
        have harith : (negotiateAux create fmt maMin miMin (i + 1) major' minor').1.length + 1 - 1
            = ((negotiateAux create fmt maMin miMin (i + 1) major' minor').1.length - 1) + 1 := by
          omega
    
        rw [harith, List.range'_succ, List.map_cons, List.flatten_cons]
        have harith2 : i + ((negotiateAux create fmt maMin miMin (i + 1) major' minor').1.length - 1 + 1)
            = (i + 1) + ((negotiateAux create fmt maMin miMin (i + 1) major' minor').1.length - 1) := by
          omega
        rw [harith2, List.append_assoc]

/-- Floor invariant: starting at or above the floor, with a floor minor of at
most 9 (or a pinned single-point range), a successful negotiation never
returns a context whose version is below the floor. -/
theorem negotiateAux_success_floor (create : SurfaceFormat → Option NegCtx)
    (fmt : SurfaceFormat) (maMin miMin : Nat) :
    ∀ fuel major minor i ctx, major * 10 + minor < fuel →
      (miMin ≤ 9 ∨ (major = maMin ∧ minor = miMin)) →
      versionLtLex major minor maMin miMin = false →
      (negotiateAux create fmt maMin miMin i major minor).2.2 = some ctx →
      versionLtLex ctx.major ctx.minor maMin miMin = false := by
  intro fuel
  induction fuel with
  | zero => intro major minor i ctx h; omega
  | succ f ih =>
    intro major minor i ctx h hinv hge hres
    rw [negotiateAux] at hres
    by_cases hok : attemptOk create fmt (major, minor)
    · simp only [hok, if_true] at hres
      obtain ⟨c, hc, hlt⟩ := (attemptOk_iff create fmt (major, minor)).1 hok
      rw [hc] at hres
      cases hres
      rw [versionLtLex_eq_false_iff] at hlt hge ⊢
      simp only at hlt
      omega
    · simp only [hok, if_false, Bool.false_eq_true] at hres
      cases hstep : stepTrial? maMin miMin major minor with
      | none => rw [hstep] at hres; simp at hres
      | some t =>
        obtain ⟨major', minor'⟩ := t
        rw [hstep] at hres
        simp only at hres
        have hlt := stepTrial?_measure _ _ _ _ _ _ hstep
        rw [versionLtLex_eq_false_iff] at hge
        unfold stepTrial? at hstep
        split at hstep
        · rename_i h1
          simp only [Option.some.injEq, Prod.mk.injEq] at hstep
          refine ih major' minor' (i + 1) ctx (by omega) (by omega) ?_ hres
          rw [versionLtLex_eq_false_iff]
          omega
        · split at hstep
          · rename_i h1 h2
            simp only [Option.some.injEq, Prod.mk.injEq] at hstep
            refine ih major' minor' (i + 1) ctx (by omega) (by omega) ?_ hres
            rw [versionLtLex_eq_false_iff]
            omega
          · exact absurd hstep (by simp)

/-- Pinned range: the loop makes exactly one attempt. -/
theorem negotiateAux_pinned_length (create : SurfaceFormat → Option NegCtx)
    (fmt : SurfaceFormat) (major minor i : Nat) :
    (negotiateAux create fmt major minor i major minor).1.length = 1 := by
  rw [negotiateAux]
  by_cases hok : attemptOk create fmt (major, minor)
  · simp [hok]
  · cases hstep : stepTrial? major minor major minor with
    | none => simp [hok, hstep]
    | some t =>
      exfalso
      unfold stepTrial? at hstep
      have h1 : ¬(major > major ∧ minor = 0) := by omega
      have h2 : ¬(major > major ∨ minor > minor) := by omega
      simp [h1, h2] at hstep

/-- `resolveOptions` succeeds exactly with the bounds computed by
`versionResolve`. -/
theorem resolveOptions_version (opts : Options) (fmt : SurfaceFormat)
    (maMax miMax maMin miMin : Nat)
    (h : resolveOptions opts = Except.ok (fmt, maMax, miMax, maMin, miMin)) :
    versionResolve opts.versionVal = Except.ok (maMax, miMax, maMin, miMin) := by
  unfold resolveOptions at h
  cases ht : typeResolve opts.typeVal initialFormat with
  | error msg => simp [ht] at h
  | ok fmt1 =>
    simp only [ht] at h
    cases hp : profileResolve opts.profileVal
        { fmt1 with profile := GLProfile.CoreProfile } with
    | error msg => simp [hp] at h
    | ok fmt2 =>
      simp only [hp] at h
      cases hv : versionResolve opts.versionVal with
      | error msg => simp [hv] at h
      | ok b =>
        obtain ⟨a, b2, c, d⟩ := b
        simp only [hv, Except.ok.injEq, Prod.mk.injEq] at h
        obtain ⟨-, h1, h2, h3, h4⟩ := h
        subst h1 h2 h3 h4
        rfl

/-- The bounds produced by `versionResolve` are either the default range
(4.9 down to 3.2) or a pinned single point. -/
theorem versionResolve_shape (v : Option String) (maMax miMax maMin miMin : Nat)
    (h : versionResolve v = Except.ok (maMax, miMax, maMin, miMin)) :
    (maMax = 4 ∧ miMax = 9 ∧ maMin = 3 ∧ miMin = 2)
      ∨ (maMax = maMin ∧ miMax = miMin) := by
  cases v with
  | none =>
    simp only [versionResolve, Except.ok.injEq, Prod.mk.injEq] at h
    left
    omega
  | some s =>
    simp only [versionResolve] at h
    cases hp : qParseVersion s with
    | none => rw [hp] at h; simp at h
    | some t =>
      obtain ⟨major, minor⟩ := t
      rw [hp] at h
      simp only [Except.ok.injEq, Prod.mk.injEq] at h
      right
      omega

/- ### String helpers for the context summary line -/

/-- `s` ends with the text of `t`. -/
def strEndsWith (s t : String) : Prop :=
  ∃ u, s.data = u ++ t.data

theorem getLast?_cons_of_getLast? {α : Type} (d : α) (ds : List α) (c : α)
    (h : ds.getLast? = some c) : (d :: ds).getLast? = some c := by
  cases ds with
  | nil => simp at h
  | cons a l => rw [List.getLast?_cons_cons]; exact h

theorem toDigitsCore_getLast? (b : Nat) :
    ∀ (fuel n : Nat) (ds : List Char) (c : Char), ds.getLast? = some c →
      (Nat.toDigitsCore b fuel n ds).getLast? = some c := by
  intro fuel
  induction fuel with
  | zero => intro n ds c h; simpa [Nat.toDigitsCore] using h
  | succ f ih =>
    intro n ds c h
    simp only [Nat.toDigitsCore]
    split
    · exact getLast?_cons_of_getLast? _ _ _ h
    · exact ih _ _ _ (getLast?_cons_of_getLast? _ _ _ h)

/-- The decimal rendering of a natural number ends in the digit character of
its last decimal digit. -/
theorem repr_data_getLast? (n : Nat) :
    (Nat.repr n).data.getLast? = some (Nat.digitChar (n % 10)) := by
  show (Nat.toDigits 10 n).getLast? = _
  simp only [Nat.toDigits, Nat.toDigitsCore]
  split
  · simp
  · exact toDigitsCore_getLast? 10 _ _ _ _ (by simp)

theorem digitChar_ne_e (k : Nat) (h : k < 10) : Nat.digitChar k ≠ 'e' := by
  interval_cases k <;> decide

/-- The summary line without a profile suffix ends in a decimal digit. -/
theorem contextBase_getLast? (ctx : NegCtx) :
    (contextBase ctx).data.getLast? = some (Nat.digitChar (ctx.minor % 10)) := by
  unfold contextBase
  rw [String.data_append, List.getLast?_append, repr_data_getLast?]
  rfl

theorem contextBase_not_endsWith_profile (ctx : NegCtx) :
    ¬ strEndsWith (contextBase ctx) "profile" := by
  rintro ⟨u, hu⟩
  have h1 := contextBase_getLast? ctx
  rw [hu, List.getLast?_append] at h1
  have h2 : ("profile".data.getLast?.or u.getLast?) = some 'e' := by
    rfl
  rw [h2] at h1
  have h3 : Nat.digitChar (ctx.minor % 10) = 'e' := by
    simpa using h1.symm
  exact digitChar_ne_e (ctx.minor % 10) (Nat.mod_lt _ (by omega)) h3

/- ### Claim C4 -/

/-- C4: the context summary line carries a profile suffix (`core` or
`compatibility`) if and only if the negotiated context is desktop OpenGL
(not OpenGLES) and its negotiated version is at least 3.2; OpenGLES contexts
and desktop contexts below 3.2 never get a profile suffix. -/
theorem summary_profile_suffix_iff (ctx : NegCtx) :
    strEndsWith (contextString ctx) "profile" ↔
      (ctx.isES = false ∧ (3 < ctx.major ∨ (ctx.major = 3 ∧ 2 ≤ ctx.minor))) := by
  unfold contextString
  by_cases hc : ctx.isES = false ∧ (3 < ctx.major ∨ (ctx.major = 3 ∧ 2 ≤ ctx.minor))
  · rw [if_pos hc]
    refine ⟨fun _ => hc, fun _ => ?_⟩
    refine ⟨(contextBase ctx ++ " "
        ++ (if ctx.profile = GLProfile.CompatibilityProfile then "compatibility"
            else "core")).data ++ [' '], ?_⟩
    simp only [String.data_append, List.append_assoc]
    rfl
  · rw [if_neg hc]
    exact ⟨fun h => absurd h (contextBase_not_endsWith_profile ctx),
           fun h => absurd h hc⟩

/- ### Claim C10 -/

/-- C10: for every desktop context at version at least 3.2 whose reported
profile is anything other than `CompatibilityProfile` — including a context
reporting no profile at all — the summary line gets the suffix
`core profile`; the code only distinguishes `CompatibilityProfile` from
everything else. -/
theorem summary_core_profile_default (ctx : NegCtx) (h1 : ctx.isES = false)
    (h2 : 3 < ctx.major ∨ (ctx.major = 3 ∧ 2 ≤ ctx.minor))
    (h3 : ctx.profile ≠ GLProfile.CompatibilityProfile) :
    contextString ctx = contextBase ctx ++ " core profile" := by
  unfold contextString
  rw [if_pos ⟨h1, h2⟩, if_neg h3]
  apply String.ext
  simp only [String.data_append, List.append_assoc]
  rfl

/-- Witness for C10 at a concrete context with `NoProfile`. -/
theorem summary_core_profile_default_witness :
    ({ isES := false, major := 4, minor := 6,
       profile := GLProfile.NoProfile } : NegCtx).isES = false
    ∧ ((3:Nat) < 4 ∨ ((4:Nat) = 3 ∧ (2:Nat) ≤ 6))
    ∧ ({ isES := false, major := 4, minor := 6,
         profile := GLProfile.NoProfile } : NegCtx).profile
        ≠ GLProfile.CompatibilityProfile
    ∧ contextString
        { isES := false, major := 4, minor := 6, profile := GLProfile.NoProfile }
      = contextBase
          { isES := false, major := 4, minor := 6, profile := GLProfile.NoProfile }
        ++ " core profile" :=
  ⟨rfl, Or.inl (by decide), by decide,
   summary_core_profile_default _ rfl (Or.inl (by decide)) (by decide)⟩

/- ### Sample environments and option sets (used by witnesses) -/

/-- A sample driver that honours any request exactly (desktop GL). -/
def alwaysEnv : Env :=
  { create := fun f =>
      some { isES := false, major := f.major, minor := f.minor,
             profile := f.profile },
    makeCurrentOk := fun _ => true,
    glS := fun _ => "str",
    glI := fun _ => 16,
    extensions := ["b", "", "a"] }

/-- A driver on which every context creation fails. -/
def failEnv : Env :=
  { create := fun _ => none,
    makeCurrentOk := fun _ => true,
    glS := fun _ => "",
    glI := fun _ => 0,
    extensions := [] }

/-- A run with no flags at all. -/
def defaultOpts : Options :=
  { typeVal := none, profileVal := none, versionVal := none,
    extensionsFlag := false }

/- ### Claim C1 -/

/-- C1: for an unconstrained run the trial sequence is the strictly
descending list 4.9, 4.8, …, 4.0, 3.9, …, 3.2 (one minor step at a time,
rolling over from minor 0 to minor 9 of the previous major); the loop
attempts exactly the all-failing prefix of that list plus the first
succeeding trial, stops at the first success, and fails only after the
floor version 3.2 itself has failed. -/
theorem negotiation_descending_search (create : SurfaceFormat → Option NegCtx)
    (fmt : SurfaceFormat) (i : Nat) :
    unconstrainedTrials =
      [(4,9),(4,8),(4,7),(4,6),(4,5),(4,4),(4,3),(4,2),(4,1),(4,0),
       (3,9),(3,8),(3,7),(3,6),(3,5),(3,4),(3,3),(3,2)]
    ∧ List.Pairwise (fun a b : Nat × Nat => b.1 < a.1 ∨ (b.1 = a.1 ∧ b.2 < a.2))
        unconstrainedTrials
    ∧ (negotiateAux create fmt 3 2 i 4 9).1 =
        unconstrainedTrials.takeWhile (fun t => !attemptOk create fmt t)
          ++ (unconstrainedTrials.dropWhile
                (fun t => !attemptOk create fmt t)).take 1
    ∧ (negotiateAux create fmt 3 2 i 4 9).2.2 =
        (match unconstrainedTrials.dropWhile (fun t => !attemptOk create fmt t) with
         | [] => none
         | t :: _ => create (fmtAt fmt t)) := by
  refine ⟨by decide, by decide, ?_, ?_⟩
  · unfold unconstrainedTrials
    exact negotiateAux_trials_eq create fmt 3 2 50 4 9 i (by omega)
  · unfold unconstrainedTrials
    exact negotiateAux_res_eq create fmt 3 2 50 4 9 i (by omega)

/- ### Claim C3 -/

/-- C3: a well-formed `--version MAJOR.MINOR` collapses the negotiation
range to the single point `(MAJOR, MINOR, MAJOR, MINOR)`, and the
negotiation loop makes at most one context-creation attempt (exactly one
when it runs at all). -/
theorem pinned_version_single_attempt (opts : Options) (env : Env)
    (s : String) (major minor : Nat) (hv : opts.versionVal = some s)
    (hp : qParseVersion s = some (major, minor)) :
    versionResolve opts.versionVal = Except.ok (major, minor, major, minor)
    ∧ (mainRun opts env).trials.length ≤ 1
    ∧ ∀ create fmt i,
        (negotiateAux create fmt major minor i major minor).1.length = 1 := by
  have hres : versionResolve opts.versionVal
      = Except.ok (major, minor, major, minor) := by
    rw [hv]; simp [versionResolve, hp]
  refine ⟨hres, ?_,
    fun create fmt i => negotiateAux_pinned_length create fmt major minor i⟩
  cases hr : resolveOptions opts with
  | error msg => rw [mainRun_error opts env msg hr]; simp [earlyExit]
  | ok t =>
    obtain ⟨fmt, maMax, miMax, maMin, miMin⟩ := t
    have hver := resolveOptions_version opts fmt maMax miMax maMin miMin hr
    rw [hres] at hver
    simp only [Except.ok.injEq, Prod.mk.injEq] at hver
    obtain ⟨e1, e2, e3, e4⟩ := hver
    subst e1 e2 e3 e4
    rw [mainRun_resolved opts env fmt major minor major minor hr]
    cases hneg : (negotiateAux env.create fmt major minor 0 major minor).2.2 with
    | none =>
      rw [finishRun_none opts env _ hneg]
      simp [negotiateAux_pinned_length]
    | some ctx =>
      by_cases hm : env.makeCurrentOk ctx
      · rw [finishRun_some_current opts env _ ctx hneg hm]
        simp [negotiateAux_pinned_length]
      · rw [finishRun_some_notcurrent opts env _ ctx hneg
          (by simpa using hm)]
        simp [negotiateAux_pinned_length]

/-- Witness for C3 at `--version 3.3`. -/
theorem pinned_version_single_attempt_witness :
    ({ typeVal := none, profileVal := none, versionVal := some "3.3",
       extensionsFlag := false } : Options).versionVal = some "3.3"
    ∧ qParseVersion "3.3" = some (3, 3)
    ∧ (versionResolve
          ({ typeVal := none, profileVal := none, versionVal := some "3.3",
             extensionsFlag := false } : Options).versionVal
          = Except.ok (3, 3, 3, 3)
       ∧ (mainRun
            { typeVal := none, profileVal := none, versionVal := some "3.3",
              extensionsFlag := false } failEnv).trials.length ≤ 1
       ∧ ∀ create fmt i,
           (negotiateAux create fmt 3 3 i 3 3).1.length = 1) :=
  ⟨rfl, by decide,
   pinned_version_single_attempt
     { typeVal := none, profileVal := none, versionVal := some "3.3",
       extensionsFlag := false } failEnv "3.3" 3 3 rfl (by decide)⟩

/- ### Claim C2 -/

/-- C2: an attempt succeeds iff a context was created with a negotiated
version at least the trial version; consequently any run that hands a
context to the report phase hands one whose version is at least the
resolved lower bound `(tryMajorMin, tryMinorMin)`. -/
theorem negotiated_version_ge_floor (opts : Options) (env : Env) (ctx : NegCtx)
    (h : (mainRun opts env).usedCtx = some ctx) :
    (∀ create fmt t, attemptOk create fmt t = true ↔
        ∃ c, create (fmtAt fmt t) = some c ∧
          versionLtLex c.major c.minor t.1 t.2 = false)
    ∧ ∃ maMax miMax maMin miMin,
        versionResolve opts.versionVal = Except.ok (maMax, miMax, maMin, miMin)
        ∧ versionLtLex ctx.major ctx.minor maMin miMin = false := by
  refine ⟨attemptOk_iff, ?_⟩
  cases hr : resolveOptions opts with
  | error msg => rw [mainRun_error opts env msg hr] at h; simp [earlyExit] at h
  | ok t =>
    obtain ⟨fmt, maMax, miMax, maMin, miMin⟩ := t
    rw [mainRun_resolved opts env fmt maMax miMax maMin miMin hr] at h
    have hver := resolveOptions_version opts fmt maMax miMax maMin miMin hr
    refine ⟨maMax, miMax, maMin, miMin, hver, ?_⟩
    cases hneg : (negotiateAux env.create fmt maMin miMin 0 maMax miMax).2.2 with
    | none => rw [finishRun_none opts env _ hneg] at h; simp at h
    | some c =>
      by_cases hm : env.makeCurrentOk c
      · rw [finishRun_some_current opts env _ c hneg hm] at h
        have hc : c = ctx := by simpa using h
        subst hc
        rcases versionResolve_shape opts.versionVal maMax miMax maMin miMin hver
          with ⟨r1, r2, r3, r4⟩ | ⟨r1, r2⟩
        · subst r1 r2 r3 r4
          exact negotiateAux_success_floor env.create fmt 3 2 50 4 9 0 c
            (by omega) (Or.inl (by omega)) (by decide) hneg
        · exact negotiateAux_success_floor env.create fmt maMin miMin
            (maMax * 10 + miMax + 1) maMax miMax 0 c (by omega)
            (Or.inr ⟨r1, r2⟩)
            (by rw [versionLtLex_eq_false_iff]; omega) hneg
      · rw [finishRun_some_notcurrent opts env _ c hneg
            (by simpa using hm)] at h
        simp at h

/-- On the always-honouring driver, the very first attempt of the default
search succeeds at 4.9. -/
theorem negotiateAux_alwaysEnv (fmt : SurfaceFormat) :
    negotiateAux alwaysEnv.create fmt 3 2 0 4 9 =
      ([(4, 9)], pairAllocEvents 0,
       some { isES := false, major := 4, minor := 9, profile := fmt.profile }) := by
  rw [negotiateAux]
  have hok : attemptOk alwaysEnv.create fmt (4, 9) = true := by
    simp [attemptOk, alwaysEnv, fmtAt, versionLtLex]
  rw [if_pos hok]
  simp [alwaysEnv, fmtAt]

/-- Full evaluation of an option-free run against the always-honouring
driver. -/
theorem mainRun_defaultOpts_alwaysEnv :
    mainRun defaultOpts alwaysEnv =
      { exitCode := 0,
        stdout := reportLines defaultOpts alwaysEnv
          { isES := false, major := 4, minor := 9,
            profile := GLProfile.CoreProfile },
        stderr := [], trials := [(4, 9)], events := pairAllocEvents 0,
        usedCtx := some { isES := false, major := 4, minor := 9,
                          profile := GLProfile.CoreProfile } } := by
  have hres : resolveOptions defaultOpts =
      Except.ok ({ renderableType := RType.DefaultRenderableType,
                   profile := GLProfile.CoreProfile, major := 2, minor := 0 },
                 4, 9, 3, 2) := by rfl
  rw [mainRun_resolved defaultOpts alwaysEnv _ 4 9 3 2 hres,
    negotiateAux_alwaysEnv,
    finishRun_some_current _ _ _ _ rfl rfl]

/-- Witness for C2: the default run against the always-honouring driver
negotiates 4.9, which is not below the floor 3.2. -/
theorem negotiated_version_ge_floor_witness :
    (mainRun defaultOpts alwaysEnv).usedCtx
        = some { isES := false, major := 4, minor := 9,
                 profile := GLProfile.CoreProfile }
    ∧ ((∀ create fmt t, attemptOk create fmt t = true ↔
          ∃ c, create (fmtAt fmt t) = some c ∧
            versionLtLex c.major c.minor t.1 t.2 = false)
       ∧ ∃ maMax miMax maMin miMin,
          versionResolve defaultOpts.versionVal
            = Except.ok (maMax, miMax, maMin, miMin)
          ∧ versionLtLex 4 9 maMin miMin = false) :=
  ⟨by rw [mainRun_defaultOpts_alwaysEnv],
   negotiated_version_ge_floor defaultOpts alwaysEnv
     { isES := false, major := 4, minor := 9,
       profile := GLProfile.CoreProfile }
     (by rw [mainRun_defaultOpts_alwaysEnv])⟩

/- ### Claim C6 -/

/-- C6: every run exits with code 0 or 1; when the exit code is 1 nothing at
all is written to standard output, and standard error carries exactly one
diagnostic line. -/
theorem exit_one_no_stdout (opts : Options) (env : Env) :
    ((mainRun opts env).exitCode = 0 ∨ (mainRun opts env).exitCode = 1)
    ∧ ((mainRun opts env).exitCode = 1 →
        (mainRun opts env).stdout = []
        ∧ ∃ msg, (mainRun opts env).stderr = [msg]) := by
  cases hr : resolveOptions opts with
  | error msg => rw [mainRun_error opts env msg hr]; simp [earlyExit]
  | ok t =>
    obtain ⟨fmt, maMax, miMax, maMin, miMin⟩ := t
    rw [mainRun_resolved opts env fmt maMax miMax maMin miMin hr]
    cases hneg : (negotiateAux env.create fmt maMin miMin 0 maMax miMax).2.2 with
    | none => rw [finishRun_none opts env _ hneg]; simp
    | some c =>
      by_cases hm : env.makeCurrentOk c
      · rw [finishRun_some_current opts env _ c hneg hm]; simp
      · rw [finishRun_some_notcurrent opts env _ c hneg
          (by simpa using hm)]
        simp

/-- Options with a malformed `--type` value. -/
def badTypeOpts : Options :=
  { typeVal := some "foo", profileVal := none, versionVal := none,
    extensionsFlag := false }

/-- Options with a malformed `--profile` value. -/
def badProfileOpts : Options :=
  { typeVal := none, profileVal := some "xyz", versionVal := none,
    extensionsFlag := false }

/-- Options with a malformed `--version` value (missing minor component). -/
def badVersionOpts : Options :=
  { typeVal := none, profileVal := none, versionVal := some "4",
    extensionsFlag := false }

/-- Witness for C6 at an invalid `--type` value. -/
theorem exit_one_no_stdout_witness :
    (mainRun badTypeOpts failEnv).exitCode = 1
    ∧ ((mainRun badTypeOpts failEnv).stdout = []
       ∧ ∃ msg, (mainRun badTypeOpts failEnv).stderr = [msg]) :=
  ⟨by decide, (exit_one_no_stdout badTypeOpts failEnv).2 (by decide)⟩

/- ### Claim C7 -/

/-- C7: every malformed `--type`, `--profile` or `--version` value makes the
program print exactly the one respective diagnostic line (`invalid type`,
`invalid profile`, `invalid version`) to standard error and exit with code 1
before any surface or context is created (no trials, no heap events). -/
theorem invalid_option_fail_fast (opts : Options) (env : Env) :
    (∀ s, opts.typeVal = some s → ciEq s "opengl" = false →
        ciEq s "opengles" = false →
        mainRun opts env = earlyExit "invalid type")
    ∧ (∀ s fmt, typeResolve opts.typeVal initialFormat = Except.ok fmt →
        opts.profileVal = some s → ciEq s "core" = false →
        ciEq s "compat" = false → ciEq s "compatibility" = false →
        mainRun opts env = earlyExit "invalid profile")
    ∧ (∀ s fmt fmt2, typeResolve opts.typeVal initialFormat = Except.ok fmt →
        profileResolve opts.profileVal
            { fmt with profile := GLProfile.CoreProfile } = Except.ok fmt2 →
        opts.versionVal = some s → qParseVersion s = none →
        mainRun opts env = earlyExit "invalid version") := by
  refine ⟨?_, ?_, ?_⟩
  · intro s hs h1 h2
    unfold mainRun resolveOptions
    rw [hs]
    simp [typeResolve, h1, h2]
  · intro s fmt ht hs h1 h2 h3
    unfold mainRun resolveOptions
    rw [ht]
    simp only
    rw [hs]
    simp [profileResolve, h1, h2, h3]
  · intro s fmt fmt2 ht hp hs hv
    unfold mainRun resolveOptions
    rw [ht]
    simp only
    rw [hp]
    simp only
    rw [hs]
    simp [versionResolve, hv]

/-- Witness for C7 at `--type foo`, `--profile xyz` and `--version 4`. -/
theorem invalid_option_fail_fast_witness :
    (ciEq "foo" "opengl" = false ∧ ciEq "foo" "opengles" = false
     ∧ mainRun badTypeOpts failEnv = earlyExit "invalid type")
    ∧ (ciEq "xyz" "core" = false ∧ ciEq "xyz" "compat" = false
       ∧ ciEq "xyz" "compatibility" = false
       ∧ mainRun badProfileOpts failEnv = earlyExit "invalid profile")
    ∧ (qParseVersion "4" = none
       ∧ mainRun badVersionOpts failEnv = earlyExit "invalid version") :=
  ⟨⟨by decide, by decide,
    (invalid_option_fail_fast badTypeOpts failEnv).1 "foo" rfl
      (by decide) (by decide)⟩,
   ⟨by decide, by decide, by decide,
    (invalid_option_fail_fast badProfileOpts failEnv).2.1 "xyz"
      initialFormat rfl rfl (by decide) (by decide) (by decide)⟩,
   ⟨by decide,
    (invalid_option_fail_fast badVersionOpts failEnv).2.2 "4"
      initialFormat
      { initialFormat with profile := GLProfile.CoreProfile } rfl rfl rfl
      (by decide)⟩⟩

/- ### Claim C8 -/

theorem head?_append_left (a b : String) (c : Char)
    (h : a.data.head? = some c) : (a ++ b).data.head? = some c := by
  rw [String.data_append, List.head?_append, h]
  rfl

theorem ne_of_head? (a q : String) (c d : Char) (ha : a.data.head? = some c)
    (hq : q.data.head? = some d) (hcd : c ≠ d) : a ≠ q := by
  intro h
  rw [h, hq] at ha
  exact hcd (Option.some.inj ha).symm

/-- The extensions header line never occurs in a report produced without the
extensions flag. -/
theorem extHeader_not_mem_reportLines (opts : Options) (env : Env)
    (ctx : NegCtx) (hflag : opts.extensionsFlag = false) :
    "Extensions:" ∉ reportLines opts env ctx := by
  intro hmem
  unfold reportLines at hmem
  rw [hflag] at hmem
  simp only [Bool.false_eq_true, if_false, List.append_nil, List.mem_append,
    List.mem_cons, List.not_mem_nil, or_false] at hmem
  rcases hmem with (h | h | h | h | h) | (h | h)
  · refine absurd h.symm
      (ne_of_head? _ _ 'C' 'E' (head?_append_left _ _ _ ?_) ?_ (by decide))
      <;> rfl
  · refine absurd h.symm
      (ne_of_head? _ _ 'V' 'E' (head?_append_left _ _ _ ?_) ?_ (by decide))
      <;> rfl
  · refine absurd h.symm
      (ne_of_head? _ _ 'S' 'E' (head?_append_left _ _ _ ?_) ?_ (by decide))
      <;> rfl
  · refine absurd h.symm
      (ne_of_head? _ _ 'V' 'E' (head?_append_left _ _ _ ?_) ?_ (by decide))
      <;> rfl
  · refine absurd h.symm
      (ne_of_head? _ _ 'R' 'E' (head?_append_left _ _ _ ?_) ?_ (by decide))
      <;> rfl
  · exact absurd h.symm (by decide)
  · rw [List.mem_flatten] at h
    obtain ⟨blk, hblk, hin⟩ := h
    rw [List.mem_map] at hblk
    obtain ⟨sec, hsec, rfl⟩ := hblk
    rcases List.mem_cons.1 hin with h | h
    · refine absurd h.symm
        (ne_of_head? _ _ ' ' 'E'
          (head?_append_left _ _ _ (head?_append_left _ _ _ ?_)) ?_
          (by decide)) <;> rfl
    · rw [List.mem_map] at h
      obtain ⟨e, he, heq⟩ := h
      refine absurd heq
        (ne_of_head? _ _ ' ' 'E' ?_ ?_ (by decide))
      · unfold limitLine
        refine head?_append_left _ _ _
          (head?_append_left _ _ _
            (head?_append_left _ _ _ (head?_append_left _ _ _ ?_)))
        rfl
      · rfl

/-- C8: the printed extension list is sorted ascending, has no duplicates
(given that the source is a set), and has no empty strings; an extension
section appears in the output exactly when the flag was set. -/
theorem extensions_report (opts : Options) (env : Env) :
    List.Sorted (· ≤ ·) (sortedExtensions env.extensions)
    ∧ (env.extensions.Nodup → (sortedExtensions env.extensions).Nodup)
    ∧ (∀ e ∈ sortedExtensions env.extensions, e ≠ "")
    ∧ (opts.extensionsFlag = true → (mainRun opts env).exitCode = 0 →
        ∃ A B, (mainRun opts env).stdout =
          A ++ ("Extensions:" ::
            (sortedExtensions env.extensions).map (fun e => "    " ++ e)) ++ B)
    ∧ (opts.extensionsFlag = false →
        "Extensions:" ∉ (mainRun opts env).stdout) := by
  refine ⟨List.sorted_insertionSort _ _, ?_, ?_, ?_, ?_⟩
  · intro h
    exact ((List.perm_insertionSort _ _).symm).nodup (h.filter _)
  · intro e he
    have hf : e ∈ env.extensions.filter (fun e => decide (0 < e.length)) :=
      (List.perm_insertionSort _ _).mem_iff.1 he
    have := (List.mem_filter.1 hf).2
    intro hrfl
    rw [hrfl] at this
    simp at this
  · intro hflag hexit
    cases hr : resolveOptions opts with
    | error msg =>
      rw [mainRun_error opts env msg hr] at hexit
      simp [earlyExit] at hexit
    | ok t =>
      obtain ⟨fmt, maMax, miMax, maMin, miMin⟩ := t
      rw [mainRun_resolved opts env fmt maMax miMax maMin miMin hr] at hexit ⊢
      cases hneg : (negotiateAux env.create fmt maMin miMin 0 maMax miMax).2.2 with
      | none => rw [finishRun_none opts env _ hneg] at hexit; simp at hexit
      | some c =>
        by_cases hm : env.makeCurrentOk c
        · rw [finishRun_some_current opts env _ c hneg hm]
          refine ⟨["Context:    " ++ contextString c,
                   "Version:    " ++ env.glS GLEnum.GL_VERSION,
                   "SL Version: " ++ env.glS GLEnum.GL_SHADING_LANGUAGE_VERSION,
                   "Vendor:     " ++ env.glS GLEnum.GL_VENDOR,
                   "Renderer:   " ++ env.glS GLEnum.GL_RENDERER],
                  "Resource limitations:" ::
                    (List.map (fun sec => ("  " ++ sec.1 ++ ":") ::
                        sec.2.map (fun e => limitLine e.1 e.2.1 e.2.2))
                      (resourceLimitSections env.glI)).flatten, ?_⟩
          unfold reportLines
          rw [hflag]
          simp
        · rw [finishRun_some_notcurrent opts env _ c hneg
            (by simpa using hm)] at hexit
          simp at hexit
  · intro hflag
    cases hr : resolveOptions opts with
    | error msg => rw [mainRun_error opts env msg hr]; simp [earlyExit]
    | ok t =>
      obtain ⟨fmt, maMax, miMax, maMin, miMin⟩ := t
      rw [mainRun_resolved opts env fmt maMax miMax maMin miMin hr]
      cases hneg : (negotiateAux env.create fmt maMin miMin 0 maMax miMax).2.2 with
      | none => rw [finishRun_none opts env _ hneg]; simp
      | some c =>
        by_cases hm : env.makeCurrentOk c
        · rw [finishRun_some_current opts env _ c hneg hm]
          exact extHeader_not_mem_reportLines opts env c hflag
        · rw [finishRun_some_notcurrent opts env _ c hneg
            (by simpa using hm)]
          simp

/-- Flag-only options: extensions requested, everything else default. -/
def extOpts : Options :=
  { typeVal := none, profileVal := none, versionVal := none,
    extensionsFlag := true }

/-- Full evaluation of a `-e` run against the always-honouring driver. -/
theorem mainRun_extOpts_alwaysEnv :
    mainRun extOpts alwaysEnv =
      { exitCode := 0,
        stdout := reportLines extOpts alwaysEnv
          { isES := false, major := 4, minor := 9,
            profile := GLProfile.CoreProfile },
        stderr := [], trials := [(4, 9)], events := pairAllocEvents 0,
        usedCtx := some { isES := false, major := 4, minor := 9,
                          profile := GLProfile.CoreProfile } } := by
  have hres : resolveOptions extOpts =
      Except.ok ({ renderableType := RType.DefaultRenderableType,
                   profile := GLProfile.CoreProfile, major := 2, minor := 0 },
                 4, 9, 3, 2) := by rfl
  rw [mainRun_resolved extOpts alwaysEnv _ 4 9 3 2 hres,
    negotiateAux_alwaysEnv,
    finishRun_some_current _ _ _ _ rfl rfl]

/-- Witness for C8: a `-e` run against the always-honouring driver. -/
theorem extensions_report_witness :
    alwaysEnv.extensions.Nodup
    ∧ (sortedExtensions alwaysEnv.extensions).Nodup
    ∧ extOpts.extensionsFlag = true
    ∧ (mainRun extOpts alwaysEnv).exitCode = 0
    ∧ (∃ A B, (mainRun extOpts alwaysEnv).stdout =
        A ++ ("Extensions:" ::
          (sortedExtensions alwaysEnv.extensions).map (fun e => "    " ++ e)) ++ B)
    ∧ "Extensions:" ∉ (mainRun defaultOpts alwaysEnv).stdout :=
  ⟨by decide,
   (extensions_report extOpts alwaysEnv).2.1 (by decide),
   rfl,
   by rw [mainRun_extOpts_alwaysEnv],
   (extensions_report extOpts alwaysEnv).2.2.2.1 rfl
     (by rw [mainRun_extOpts_alwaysEnv]),
   (extensions_report defaultOpts alwaysEnv).2.2.2.2 rfl⟩

/- ### Claim C9 -/

/-- C9: every printed resource-limit line's value is either the result of
exactly one integer query or 4 times one queried value; the vertex-stage
input-component line is 4 times `GL_MAX_VERTEX_ATTRIBS`, the fragment-stage
output-component line is 4 times `GL_MAX_DRAW_BUFFERS`, and every other line
prints the raw queried value next to its query identifier. -/
theorem limit_lines_single_query (glI : GLEnum → Int) :
    (∀ sec ∈ resourceLimitSections glI, ∀ e ∈ sec.2,
        (∃ q, e.2.1 = glI q ∧ e.2.2 = glEnumName q)
        ∨ (∃ q, e.2.1 = 4 * glI q ∧ e.2.2 = "4*" ++ glEnumName q
            ∧ (q = GLEnum.GL_MAX_VERTEX_ATTRIBS
               ∨ q = GLEnum.GL_MAX_DRAW_BUFFERS)))
    ∧ (∀ sec ∈ resourceLimitSections glI, ∀ e ∈ sec.2,
        sec.1 = "Maximum number of input components in shader stage" →
        e.1 = "Vertex" →
        e.2.1 = 4 * glI GLEnum.GL_MAX_VERTEX_ATTRIBS
        ∧ e.2.2 = "4*GL_MAX_VERTEX_ATTRIBS")
    ∧ (∀ sec ∈ resourceLimitSections glI, ∀ e ∈ sec.2,
        sec.1 = "Maximum number of output components in shader stage" →
        e.1 = "Fragment" →
        e.2.1 = 4 * glI GLEnum.GL_MAX_DRAW_BUFFERS
        ∧ e.2.2 = "4*GL_MAX_DRAW_BUFFERS")
    ∧ (∀ sec ∈ resourceLimitSections glI, ∀ e ∈ sec.2,
        ¬(sec.1 = "Maximum number of input components in shader stage"
          ∧ e.1 = "Vertex") →
        ¬(sec.1 = "Maximum number of output components in shader stage"
          ∧ e.1 = "Fragment") →
        ∃ q, e.2.1 = glI q ∧ e.2.2 = glEnumName q) := by
  refine ⟨?_, ?_, ?_, ?_⟩
  · intro sec hsec e he
    fin_cases hsec <;> fin_cases he <;>
      first
        | exact Or.inr ⟨_, rfl, rfl, Or.inl rfl⟩
        | exact Or.inr ⟨_, rfl, rfl, Or.inr rfl⟩
        | exact Or.inl ⟨_, rfl, rfl⟩
  · intro sec hsec e he h1 h2
    fin_cases hsec <;> fin_cases he <;> simp_all
  · intro sec hsec e he h1 h2
    fin_cases hsec <;> fin_cases he <;> simp_all
  · intro sec hsec e he h1 h2
    fin_cases hsec <;> fin_cases he <;>
      first
        | exact ⟨_, rfl, rfl⟩
        | simp_all

/-- A concrete instance of the input-components section against the
always-honouring driver (whose every integer query returns 16). -/
def sampleInputSection : String × List (String × Int × String) :=
  ("Maximum number of input components in shader stage",
   [("Vertex", 64, "4*GL_MAX_VERTEX_ATTRIBS"),
    ("Tess. Ctrl.", 16, "GL_MAX_TESS_CONTROL_INPUT_COMPONENTS"),
    ("Tess. Eval.", 16, "GL_MAX_TESS_EVALUATION_INPUT_COMPONENTS"),
    ("Geometry", 16, "GL_MAX_GEOMETRY_INPUT_COMPONENTS"),
    ("Fragment", 16, "GL_MAX_FRAGMENT_INPUT_COMPONENTS")])

/-- Witness for C9 at the vertex-stage input-component line. -/
theorem limit_lines_single_query_witness :
    sampleInputSection ∈ resourceLimitSections alwaysEnv.glI
    ∧ ("Vertex", (64:Int), "4*GL_MAX_VERTEX_ATTRIBS") ∈ sampleInputSection.2
    ∧ sampleInputSection.1
        = "Maximum number of input components in shader stage"
    ∧ ((64:Int) = 4 * alwaysEnv.glI GLEnum.GL_MAX_VERTEX_ATTRIBS
       ∧ "4*GL_MAX_VERTEX_ATTRIBS" = "4*GL_MAX_VERTEX_ATTRIBS") :=
  ⟨by decide, by decide, rfl,
   (limit_lines_single_query alwaysEnv.glI).2.1 sampleInputSection (by decide)
     ("Vertex", 64, "4*GL_MAX_VERTEX_ATTRIBS") (by decide) rfl rfl⟩

/- ### Claim C5 -/

/-- Free events of pair `k` never occur among the alloc/free quadruples of
pairs numbered below `k`. -/
theorem free_not_mem_quad_flatten (k : Nat) :
    ∀ n i, i + n ≤ k →
      MemEvent.freeSurface k ∉ ((List.range' i n).map quadEvents).flatten
      ∧ MemEvent.freeContext k ∉ ((List.range' i n).map quadEvents).flatten := by
  intro n
  induction n with
  | zero => intro i h; simp
  | succ n ih =>
    intro i h
    rw [List.range'_succ, List.map_cons, List.flatten_cons]
    constructor
    · intro hmem
      rcases List.mem_append.1 hmem with hm | hm
      · simp [quadEvents] at hm
        omega
      · exact ((ih (i + 1) (by omega)).1) hm
    · intro hmem
      rcases List.mem_append.1 hmem with hm | hm
      · simp [quadEvents] at hm
        omega
      · exact ((ih (i + 1) (by omega)).2) hm

/-- C5 (amended): every loop iteration whose attempt fails and retries frees
its surface/context pair (context first, then surface) before the next
iteration allocates the next pair — the event trace is exactly the
alloc/free quadruples of all retried iterations followed by the final
iteration's two allocations — but the final iteration's pair is never freed
by the loop, including on the path that exits with failure. -/
theorem failed_attempts_release_pairs (create : SurfaceFormat → Option NegCtx)
    (fmt : SurfaceFormat) (maMin miMin i major minor : Nat) :
    (negotiateAux create fmt maMin miMin i major minor).2.1 =
      ((List.range' i
          ((negotiateAux create fmt maMin miMin i major minor).1.length - 1)).map
        quadEvents).flatten
      ++ pairAllocEvents
          (i + ((negotiateAux create fmt maMin miMin i major minor).1.length - 1))
    ∧ MemEvent.freeContext
        (i + ((negotiateAux create fmt maMin miMin i major minor).1.length - 1))
        ∉ (negotiateAux create fmt maMin miMin i major minor).2.1
    ∧ MemEvent.freeSurface
        (i + ((negotiateAux create fmt maMin miMin i major minor).1.length - 1))
        ∉ (negotiateAux create fmt maMin miMin i major minor).2.1 := by
  have hev := negotiateAux_events_eq create fmt maMin miMin
    (major * 10 + minor + 1) major minor i (by omega)
  refine ⟨hev, ?_, ?_⟩
  · rw [hev]
    intro hmem
    rcases List.mem_append.1 hmem with hm | hm
    · exact (free_not_mem_quad_flatten _ _ i (by omega)).2 hm
    · simp [pairAllocEvents] at hm
  · rw [hev]
    intro hmem
    rcases List.mem_append.1 hmem with hm | hm
    · exact (free_not_mem_quad_flatten _ _ i (by omega)).1 hm
    · simp [pairAllocEvents] at hm

/-- Counterexample to C5 as stated: on a driver where every creation fails,
the default negotiation walks all 18 trials and exits with failure, yet the
18th (last) surface/context pair is allocated and never freed — the
failure-exit path does not release the last pair before the process exits. -/
theorem leak_on_failure_counterexample :
    (negotiateAux failEnv.create initialFormat 3 2 0 4 9).2.2 = none
    ∧ (negotiateAux failEnv.create initialFormat 3 2 0 4 9).1.length = 18
    ∧ MemEvent.allocSurface 17
        ∈ (negotiateAux failEnv.create initialFormat 3 2 0 4 9).2.1
    ∧ MemEvent.allocContext 17
        ∈ (negotiateAux failEnv.create initialFormat 3 2 0 4 9).2.1
    ∧ MemEvent.freeContext 17
        ∉ (negotiateAux failEnv.create initialFormat 3 2 0 4 9).2.1
    ∧ MemEvent.freeSurface 17
        ∉ (negotiateAux failEnv.create initialFormat 3 2 0 4 9).2.1 := by
  have e1 := negotiateAux_trials_eq failEnv.create initialFormat 3 2 50 4 9 0
    (by omega)
  have e2 := negotiateAux_events_eq failEnv.create initialFormat 3 2 50 4 9 0
    (by omega)
  have e3 := negotiateAux_res_eq failEnv.create initialFormat 3 2 50 4 9 0
    (by omega)
  refine ⟨?_, ?_, ?_, ?_, ?_, ?_⟩
  · rw [e3]; decide
  · rw [e1]; decide
  · rw [e2, e1]; decide
  · rw [e2, e1]; decide
  · rw [e2, e1]; decide
  · rw [e2, e1]; decide
